import Mathlib

/-!
Verification of the memoryRAG chat application's specification against its
code. The repository ships a React frontend (`src/App.tsx`), a setup script
(`setup.sh`) and a README; the Python backend (Conversation Store, Provider
Adapter, Chat API) is described by the specification but its source is not
part of the checked-in tree, so those components are modelled faithfully
from the specification's words and the README's endpoint/model lists.
-/

namespace MemoryRag

/-! ## Data model (spec §3) -/

/-- Modelled from the spec: message role enum (user/assistant/system). -/
inductive Role where
  | user
  | assistant
  | system
deriving DecidableEq, Repr

/-- Modelled from the spec: a Message has a role, text content and a
timestamp; immutable once created. -/
structure Message where
  role : Role
  content : String
  timestamp : Nat
deriving DecidableEq, Repr

/-- Modelled from the spec: provider enum (OpenAI, Google, Anthropic). -/
inductive Provider where
  | openai
  | google
  | anthropic
deriving DecidableEq, Repr

/-- Modelled from the spec: ModelSettings = provider enum, model identifier,
temperature (bounded numeric), max tokens (bounded integer), optional system
prompt string. -/
structure ModelSettings where
  provider : Provider
  modelId : String
  temperature : Rat
  maxTokens : Nat
  systemPrompt : Option String
deriving DecidableEq, Repr

/-- Modelled from the spec: a Conversation has an id, title, ordered sequence
of Message, created/updated timestamps and associated model settings. -/
structure Conversation where
  id : Nat
  title : String
  messages : List Message
  createdAt : Nat
  updatedAt : Nat
  settings : ModelSettings
deriving DecidableEq, Repr

/-- Modelled from the spec: the Conversation Store is an in-memory mapping
from conversation id to an ordered list of messages and metadata. Fresh
ids are drawn from a counter, so a newly created conversation's id is
absent from the prior state. -/
structure Store where
  conversations : List Conversation
  nextId : Nat
deriving DecidableEq, Repr

/-- The empty store (initial backend state). -/
def Store.empty : Store := ⟨[], 0⟩

/-- The ids present in a store, in listing order. -/
def Store.ids (s : Store) : List Nat := s.conversations.map (·.id)

/-! ## Conversation Store operations (spec §4.2: create, read,
update (append message / rename), delete by id) -/

/-- Modelled from the spec: create a conversation; the new conversation
receives the store's fresh id and is appended to the listing. Returns the
new store and the new conversation's id. -/
def createConversation (s : Store) (title : String) (settings : ModelSettings)
    (now : Nat) : Store × Nat :=
  (⟨s.conversations ++
      [⟨s.nextId, title, [], now, now, settings⟩], s.nextId + 1⟩, s.nextId)

/-- Modelled from the spec: read a conversation by direct id lookup. -/
def getConversation (s : Store) (i : Nat) : Option Conversation :=
  s.conversations.find? (fun c => c.id = i)

/-- Modelled from the spec: list all conversations. -/
def listConversations (s : Store) : List Conversation :=
  s.conversations

/-- Append a message to one conversation record (messages keep insertion
order; the updated timestamp advances). -/
def Conversation.appendMsg (c : Conversation) (m : Message) : Conversation :=
  { c with messages := c.messages ++ [m], updatedAt := m.timestamp }

/-- Modelled from the spec: update a conversation by appending a message. -/
def appendMessage (s : Store) (i : Nat) (m : Message) : Store :=
  { s with conversations :=
      s.conversations.map (fun c => if c.id = i then c.appendMsg m else c) }

/-- Modelled from the spec: update a conversation by renaming its title. -/
def renameConversation (s : Store) (i : Nat) (t : String) (now : Nat) : Store :=
  { s with conversations :=
      s.conversations.map (fun c =>
        if c.id = i then { c with title := t, updatedAt := now } else c) }

/-- Modelled from the spec: delete a conversation by id. -/
def deleteConversation (s : Store) (i : Nat) : Store :=
  { s with conversations := s.conversations.filter (fun c => ¬ c.id = i) }

/-- Modelled from the spec: DELETE /api/chat/conversations/\x7bid\x7d/messages
clears a conversation's messages. -/
def clearMessages (s : Store) (i : Nat) (now : Nat) : Store :=
  { s with conversations :=
      s.conversations.map (fun c =>
        if c.id = i then { c with messages := [], updatedAt := now } else c) }

/-! ## Reachable store states -/

/-- One Conversation Store operation, as exposed by the Chat API. -/
inductive Op where
  | create (title : String) (settings : ModelSettings) (now : Nat)
  | append (i : Nat) (m : Message)
  | rename (i : Nat) (t : String) (now : Nat)
  | delete (i : Nat)
  | clear (i : Nat) (now : Nat)
deriving DecidableEq, Repr

/-- Apply one operation to the store. -/
def applyOp (s : Store) : Op → Store
  | .create title settings now => (createConversation s title settings now).1
  | .append i m => appendMessage s i m
  | .rename i t now => renameConversation s i t now
  | .delete i => deleteConversation s i
  | .clear i now => clearMessages s i now

/-- Run a sequence of operations from the empty store. -/
def runOps (ops : List Op) : Store :=
  ops.foldl applyOp Store.empty

/-- Store wellformedness: every id is below the fresh-id counter, and the
ids are pairwise distinct. -/
def Store.WF (s : Store) : Prop :=
  (∀ c ∈ s.conversations, c.id < s.nextId) ∧ s.ids.Nodup

/-! ## Provider Adapter (spec §4.1) -/

/-- Modelled from the spec: the provider-error kinds the adapter may fail
with (authentication, rate-limit, invalid-model, network-timeout). -/
inductive ProviderError where
  | authentication
  | rateLimit
  | invalidModel
  | networkTimeout
deriving DecidableEq, Repr

/-- Modelled from the spec: the outcome of the single underlying SDK call
made by the adapter (success with response text, or one of the SDK
exception classes the adapter translates). -/
inductive SdkOutcome where
  | success (text : String)
  | authFailure
  | rateLimited
  | modelNotFound
  | timedOut
deriving DecidableEq, Repr

/-- Modelled from the spec: provider names accepted at the API boundary;
any other provider string is unsupported. -/
def parseProvider : String → Option Provider
  | "openai" => some Provider.openai
  | "google" => some Provider.google
  | "anthropic" => some Provider.anthropic
  | _ => none

/-- Modelled from the spec and README model lists: the model ids each
provider supports; any other model id is unsupported. -/
def supportedModels : Provider → List String
  | Provider.openai => ["gpt-4-turbo", "gpt-4", "gpt-3.5-turbo"]
  | Provider.google => ["gemini-pro", "gemini-pro-vision"]
  | Provider.anthropic => ["claude-3-opus", "claude-3-sonnet", "claude-3-haiku"]

/-- Modelled from the spec: the Provider Adapter. Given (provider, model id,
message list, settings) it makes exactly one SDK call (consuming one
`SdkOutcome`, with no retry) and either produces a single assistant message
or fails with a `ProviderError`. -/
def callProvider (p : Provider) (modelId : String) (_history : List Message)
    (_settings : ModelSettings) (outcome : SdkOutcome) (now : Nat) :
    Except ProviderError Message :=
  if modelId ∈ supportedModels p then
    match outcome with
    | .success text => Except.ok ⟨Role.assistant, text, now⟩
    | .authFailure => Except.error ProviderError.authentication
    | .rateLimited => Except.error ProviderError.rateLimit
    | .modelNotFound => Except.error ProviderError.invalidModel
    | .timedOut => Except.error ProviderError.networkTimeout
  else Except.error ProviderError.invalidModel

/-! ## Chat API send-message endpoint (spec §4.3, §8) -/

/-- Modelled from the spec: the POST /api/chat/send request shape. The
provider arrives as a string at the API boundary, where it is validated. -/
structure SendRequest where
  conversationId : Nat
  provider : String
  modelId : String
  content : String
  settings : ModelSettings
deriving DecidableEq, Repr

/-- Modelled from the spec: the send-message endpoint. It validates the
provider/model, invokes the Provider Adapter, and on success appends the
user message and the assistant reply to the conversation; on any error the
store is returned unchanged. -/
def sendMessage (s : Store) (req : SendRequest) (outcome : SdkOutcome)
    (now : Nat) : Store × Except ProviderError Message :=
  match parseProvider req.provider with
  | none => (s, Except.error ProviderError.invalidModel)
  | some p =>
    if req.modelId ∈ supportedModels p then
      let history := ((getConversation s req.conversationId).map
        (·.messages)).getD []
      match callProvider p req.modelId history req.settings outcome now with
      | Except.ok reply =>
        let s' := appendMessage s req.conversationId ⟨Role.user, req.content, now⟩
        (appendMessage s' req.conversationId reply, Except.ok reply)
      | Except.error e => (s, Except.error e)
    else (s, Except.error ProviderError.invalidModel)

/-! ## Frontend root component (src/App.tsx) -/

/-- An icon theme passed to the toast container (react-hot-toast). -/
structure IconTheme where
  primary : String
  secondary : String
deriving DecidableEq, Repr

/-- The toastOptions prop of the Toaster in src/App.tsx. -/
structure ToastOptions where
  duration : Nat
  background : String
  color : String
  successIcon : IconTheme
  errorIcon : IconTheme
deriving DecidableEq, Repr

/-- The element tree App returns: plain divs with class names, the three
child components it composes, and the react-hot-toast Toaster container. -/
inductive VNode where
  | div (className : String) (children : List VNode)
  | sidebar
  | header
  | chatArea
  | toaster (position : String) (opts : ToastOptions)
deriving Repr

/-- The client store state the App component can read through useChatStore
(src/store/chatStore); App destructures only `sidebarOpen`. -/
structure ChatStoreState where
  sidebarOpen : Bool
  activeConversationId : Option Nat
  conversations : List Conversation
  loading : Bool
deriving DecidableEq, Repr

set_option linter.unusedVariables false in
/-- The App component of src/App.tsx: reads `sidebarOpen` from the chat
store and returns a fixed tree of Sidebar, Header, ChatArea and a Toaster
configured exactly as in lines 28-49 of the source. -/
def App (store : ChatStoreState) : VNode :=
  let sidebarOpen := store.sidebarOpen
  VNode.div "flex h-screen bg-gray-50"
    [ VNode.sidebar,
      VNode.div "flex-1 flex flex-col min-w-0"
        [ VNode.header,
          VNode.div "flex-1 overflow-hidden" [VNode.chatArea] ],
      VNode.toaster "top-right"
        { duration := 4000
          background := "#363636"
          color := "#fff"
          successIcon := ⟨"#10B981", "#fff"⟩
          errorIcon := ⟨"#EF4444", "#fff"⟩ } ]

mutual

/-- Does a rendered tree mount a Toaster whose toastOptions configure the
error icon theme with the red error primary colour? -/
def mountsErrorToaster : VNode → Bool
  | VNode.div _ children => mountsErrorToasterAny children
  | VNode.toaster _ opts => opts.errorIcon.primary = "#EF4444"
  | VNode.sidebar => false
  | VNode.header => false
  | VNode.chatArea => false

/-- Does any tree of a list mount such a Toaster? -/
def mountsErrorToasterAny : List VNode → Bool
  | [] => false
  | v :: vs => mountsErrorToaster v || mountsErrorToasterAny vs

end

/-! ## Setup script (setup.sh) -/

/-- The environment the setup script probes: which interpreters `command -v`
finds, and whether backend/.env already exists (with its content) next to
the env_example.txt template. -/
structure SetupEnv where
  hasPython3 : Bool
  hasNode : Bool
  hasPython312 : Bool
  hasPython311 : Bool
  envFile : Option String
  template : String
deriving DecidableEq, Repr

/-- The installation and file-creation steps the script can perform
(echoes are not recorded: they create no files and install nothing). -/
inductive SetupEffect where
  | createVenv (python : String)
  | pipUpgrade
  | pipInstallRequirements
  | copyEnvTemplate
  | npmInstall
deriving DecidableEq, Repr

/-- The final state of backend/.env after lines 45-51 of setup.sh: the
template is copied only when no .env file exists. -/
def envStep (env : SetupEnv) : Option String :=
  match env.envFile with
  | none => some env.template
  | some content => some content

/-- setup.sh, lines 26-35: the interpreter chosen for the virtual
environment (python3.12, else python3.11, else the default python3). -/
def pythonChoice (env : SetupEnv) : String :=
  if env.hasPython312 then "python3.12"
  else if env.hasPython311 then "python3.11"
  else "python3"

/-- setup.sh, lines 7-57: check python3 then node (each missing one exits
with status 1 before any install or file-creation step), create the venv
with the best python available, upgrade pip, install requirements, create
.env from the template only if absent, then npm install. Returns the early
exit code, if any, the ordered effects performed, and the resulting
backend/.env content. -/
def runSetup (env : SetupEnv) :
    Option Nat × List SetupEffect × Option String :=
  if ¬ env.hasPython3 then (some 1, [], env.envFile)
  else if ¬ env.hasNode then (some 1, [], env.envFile)
  else
    let envEffects :=
      match env.envFile with
      | none => [SetupEffect.copyEnvTemplate]
      | some _ => []
    (none,
     [SetupEffect.createVenv (pythonChoice env), SetupEffect.pipUpgrade,
      SetupEffect.pipInstallRequirements]
       ++ envEffects ++ [SetupEffect.npmInstall],
     envStep env)

/-! ## Helper lemmas about the Conversation Store -/

lemma find?_congr_pred {α : Type} (l : List α) (p q : α → Bool)
    (h : ∀ a, p a = q a) : l.find? p = l.find? q := by
  induction l with
  | nil => rfl
  | cons a l ih =>
    simp only [List.find?_cons, h a, ih]

lemma find?_map_preserve (l : List Conversation) (k : Nat)
    (f : Conversation → Conversation) (hf : ∀ c, (f c).id = c.id) :
    (l.map f).find? (fun c => c.id = k)
      = (l.find? (fun c => c.id = k)).map f := by
  induction l with
  | nil => rfl
  | cons c l ih =>
    simp only [List.map_cons, List.find?_cons, hf c]
    by_cases h : c.id = k
    · simp [h]
    · simp [h, ih]

lemma ite_update_id (i : Nat) (g : Conversation → Conversation)
    (hg : ∀ c, (g c).id = c.id) (c : Conversation) :
    (if c.id = i then g c else c).id = c.id := by
  split
  · exact hg c
  · rfl

lemma getConversation_appendMessage (s : Store) (i k : Nat) (m : Message) :
    getConversation (appendMessage s i m) k
      = (getConversation s k).map
          (fun c => if c.id = i then c.appendMsg m else c) := by
  unfold getConversation appendMessage
  exact find?_map_preserve _ _ _ (ite_update_id i _ (fun _ => rfl))

lemma getConversation_renameConversation (s : Store) (i k : Nat) (t : String)
    (now : Nat) :
    getConversation (renameConversation s i t now) k
      = (getConversation s k).map
          (fun c => if c.id = i then { c with title := t, updatedAt := now }
                    else c) := by
  unfold getConversation renameConversation
  exact find?_map_preserve _ _ _ (ite_update_id i _ (fun _ => rfl))

lemma getConversation_clearMessages (s : Store) (i k : Nat) (now : Nat) :
    getConversation (clearMessages s i now) k
      = (getConversation s k).map
          (fun c => if c.id = i then { c with messages := [], updatedAt := now }
                    else c) := by
  unfold getConversation clearMessages
  exact find?_map_preserve _ _ _ (ite_update_id i _ (fun _ => rfl))

lemma getConversation_create (s : Store) (title : String)
    (settings : ModelSettings) (now k : Nat) (c : Conversation)
    (h : getConversation s k = some c) :
    getConversation (createConversation s title settings now).1 k = some c := by
  unfold getConversation createConversation at *
  simp only [List.find?_append, h, Option.or_some]

lemma getConversation_delete (s : Store) (x k : Nat) :
    getConversation (deleteConversation s x) k
      = if k = x then none else getConversation s k := by
  unfold getConversation deleteConversation
  simp only [List.find?_filter]
  by_cases hkx : k = x
  · subst hkx
    rw [if_pos rfl, find?_congr_pred _ _ (fun _ => false) ?_]
    · exact List.find?_eq_none.mpr (fun a _ => by simp)
    · intro a
      by_cases h : a.id = k <;> simp [h]
  · rw [if_neg hkx, find?_congr_pred _ _ (fun c => decide (c.id = k)) ?_]
    intro a
    by_cases h : a.id = k
    · simp [h, hkx]
    · simp [h]

/-- The single-step insertion-order fact: after any store operation, a
conversation that survives under the same id keeps its old message list as
a prefix, except that the clear-messages endpoint empties it. -/
lemma applyOp_messages_prefix_or_nil (s : Store) (op : Op) (i : Nat)
    (c c' : Conversation) (h1 : getConversation s i = some c)
    (h2 : getConversation (applyOp s op) i = some c') :
    c.messages <+: c'.messages ∨ c'.messages = [] := by
  cases op with
  | create title settings now =>
    rw [show applyOp s (Op.create title settings now)
          = (createConversation s title settings now).1 from rfl] at h2
    rw [getConversation_create s title settings now i c h1] at h2
    cases h2
    exact Or.inl (List.prefix_refl _)
  | append j m =>
    rw [show applyOp s (Op.append j m) = appendMessage s j m from rfl,
        getConversation_appendMessage, h1] at h2
    simp only [Option.map_some', Option.some.injEq] at h2
    subst h2
    by_cases h : c.id = j
    · rw [if_pos h]
      exact Or.inl (List.prefix_append _ _)
    · rw [if_neg h]
      exact Or.inl (List.prefix_refl _)
  | rename j t now =>
    rw [show applyOp s (Op.rename j t now) = renameConversation s j t now
          from rfl, getConversation_renameConversation, h1] at h2
    simp only [Option.map_some', Option.some.injEq] at h2
    subst h2
    by_cases h : c.id = j
    · rw [if_pos h]
      exact Or.inl (List.prefix_refl _)
    · rw [if_neg h]
      exact Or.inl (List.prefix_refl _)
  | delete x =>
    rw [show applyOp s (Op.delete x) = deleteConversation s x from rfl,
        getConversation_delete] at h2
    by_cases h : i = x
    · rw [if_pos h] at h2
      cases h2
    · rw [if_neg h, h1] at h2
      cases h2
      exact Or.inl (List.prefix_refl _)
  | clear j now =>
    rw [show applyOp s (Op.clear j now) = clearMessages s j now from rfl,
        getConversation_clearMessages, h1] at h2
    simp only [Option.map_some', Option.some.injEq] at h2
    subst h2
    by_cases h : c.id = j
    · rw [if_pos h]
      exact Or.inr rfl
    · rw [if_neg h]
      exact Or.inl (List.prefix_refl _)

lemma ids_map_preserve (l : List Conversation) (f : Conversation → Conversation)
    (hf : ∀ c, (f c).id = c.id) :
    (l.map f).map (fun c => c.id) = l.map (fun c => c.id) := by
  induction l with
  | nil => rfl
  | cons c l ih => simp [hf c, ih]

lemma wf_map_update (s : Store) (f : Conversation → Conversation)
    (hf : ∀ c, (f c).id = c.id) (h : Store.WF s) :
    Store.WF ⟨s.conversations.map f, s.nextId⟩ := by
  obtain ⟨hlt, hnd⟩ := h
  refine ⟨?_, ?_⟩
  · intro c hc
    obtain ⟨c₀, hc₀, hmap⟩ := List.mem_map.mp hc
    have hid : c.id = c₀.id := by rw [← hmap, hf]
    exact hid ▸ hlt c₀ hc₀
  · show ((s.conversations.map f).map (fun c => c.id)).Nodup
    rw [ids_map_preserve _ f hf]
    exact hnd

lemma wf_applyOp (s : Store) (op : Op) (h : Store.WF s) :
    Store.WF (applyOp s op) := by
  cases op with
  | create title settings now =>
    obtain ⟨hlt, hnd⟩ := h
    constructor
    · intro c hc
      rcases List.mem_append.mp hc with hc | hc
      · exact Nat.lt_succ_of_lt (hlt c hc)
      · rw [List.mem_singleton.mp hc]
        exact Nat.lt_succ_self _
    · show ((s.conversations
          ++ [(⟨s.nextId, title, [], now, now, settings⟩ : Conversation)]).map
            (fun c => c.id)).Nodup
      rw [List.map_append, List.nodup_append]
      refine ⟨hnd, List.nodup_singleton _, ?_⟩
      intro a ha hb
      obtain ⟨c, hc, hci⟩ := List.mem_map.mp ha
      have h1 : a < s.nextId := hci ▸ hlt c hc
      have h2 : a = s.nextId := by simpa using hb
      exact absurd (h2 ▸ h1) (lt_irrefl _)
  | append i m =>
    exact wf_map_update s (fun c => if c.id = i then c.appendMsg m else c)
      (ite_update_id i (fun c => c.appendMsg m) (fun _ => rfl)) h
  | rename i t now =>
    exact wf_map_update s
      (fun c => if c.id = i then { c with title := t, updatedAt := now } else c)
      (ite_update_id i (fun c => { c with title := t, updatedAt := now })
        (fun _ => rfl)) h
  | delete i =>
    obtain ⟨hlt, hnd⟩ := h
    refine ⟨?_, ?_⟩
    · intro c hc
      exact hlt c (List.mem_filter.mp hc).1
    · show ((s.conversations.filter (fun c => ¬ c.id = i)).map
          (fun c => c.id)).Nodup
      exact ((List.filter_sublist _).map _).nodup hnd
  | clear i now =>
    exact wf_map_update s
      (fun c => if c.id = i then { c with messages := [], updatedAt := now }
                else c)
      (ite_update_id i
        (fun c => { c with messages := [], updatedAt := now })
        (fun _ => rfl)) h

lemma wf_empty : Store.WF Store.empty :=
  ⟨fun c hc => absurd hc (List.not_mem_nil c), List.nodup_nil⟩

lemma wf_runOps (ops : List Op) : Store.WF (runOps ops) := by
  suffices h : ∀ s, Store.WF s → Store.WF (ops.foldl applyOp s) from
    h Store.empty wf_empty
  induction ops with
  | nil => intro s hs; exact hs
  | cons op ops ih => intro s hs; exact ih (applyOp s op) (wf_applyOp s op hs)

lemma nextId_not_mem (s : Store) (h : Store.WF s) : s.nextId ∉ s.ids := by
  intro hmem
  obtain ⟨c, hc, hid⟩ := List.mem_map.mp hmem
  exact absurd (hid ▸ h.1 c hc) (lt_irrefl _)

lemma getConversation_id (s : Store) (k : Nat) (c : Conversation)
    (h : getConversation s k = some c) : c.id = k := by
  unfold getConversation at h
  simpa using List.find?_some h

lemma appendMessage_frame (s : Store) (i k : Nat) (m : Message)
    (hk : ¬ k = i) :
    getConversation (appendMessage s i m) k = getConversation s k := by
  rw [getConversation_appendMessage]
  cases hg : getConversation s k with
  | none => rfl
  | some c =>
    have hc : c.id = k := getConversation_id s k c hg
    rw [Option.map_some']
    rw [if_neg (hc ▸ hk)]

/-! ## Concrete fixtures used by witness theorems -/

/-- A concrete settings record. -/
def sampleSettings : ModelSettings :=
  ⟨Provider.openai, "gpt-4", 1, 256, none⟩

/-- A concrete user message. -/
def msg1 : Message := ⟨Role.user, "hello", 1⟩

/-- A concrete assistant message. -/
def msg2 : Message := ⟨Role.assistant, "hi there", 2⟩

/-- A concrete conversation holding one message. -/
def conv0 : Conversation := ⟨0, "chat", [msg1], 0, 1, sampleSettings⟩

/-- A concrete wellformed store holding one conversation. -/
def store1 : Store := ⟨[conv0], 1⟩

/-- A concrete send request naming a provider the system does not support. -/
def badReq : SendRequest := ⟨0, "cohere", "command-r", "hey", sampleSettings⟩

/-! ## Claim theorems -/

/-- C1: sending a message whose provider or model is unsupported returns an
error and leaves the Conversation Store exactly as it was: no conversation
is created, deleted, or has messages appended. -/
theorem send_unsupported_leaves_store_unchanged (s : Store) (req : SendRequest)
    (outcome : SdkOutcome) (now : Nat)
    (h : parseProvider req.provider = none ∨
      ∃ p, parseProvider req.provider = some p ∧
        req.modelId ∉ supportedModels p) :
    (sendMessage s req outcome now).1 = s ∧
      ∃ e, (sendMessage s req outcome now).2 = Except.error e := by
  rcases h with h | ⟨p, hp, hm⟩
  · rw [show sendMessage s req outcome now
        = (s, Except.error ProviderError.invalidModel) from by
          simp only [sendMessage, h]]
    exact ⟨rfl, ProviderError.invalidModel, rfl⟩
  · rw [show sendMessage s req outcome now
        = (s, Except.error ProviderError.invalidModel) from by
          simp only [sendMessage, hp]
          rw [if_neg hm]]
    exact ⟨rfl, ProviderError.invalidModel, rfl⟩

/-- Witness for C1 at a concrete store and a request naming an unsupported
provider. -/
theorem send_unsupported_leaves_store_unchanged_witness :
    (parseProvider badReq.provider = none ∨
      ∃ p, parseProvider badReq.provider = some p ∧
        badReq.modelId ∉ supportedModels p) ∧
    ((sendMessage store1 badReq SdkOutcome.timedOut 9).1 = store1 ∧
      ∃ e, (sendMessage store1 badReq SdkOutcome.timedOut 9).2
        = Except.error e) :=
  ⟨Or.inl (by decide),
   send_unsupported_leaves_store_unchanged store1 badReq SdkOutcome.timedOut 9
     (Or.inl (by decide))⟩

/-- C2: appending a message keeps the existing messages as a prefix in the
same order, and every store operation keeps a surviving conversation's
messages in insertion order (its old list stays a prefix, except that the
clear-messages endpoint empties the list). -/
theorem append_preserves_message_order :
    (∀ (c : Conversation) (m : Message),
       c.messages <+: (c.appendMsg m).messages) ∧
    (∀ (s : Store) (op : Op) (i : Nat) (c c' : Conversation),
       getConversation s i = some c →
       getConversation (applyOp s op) i = some c' →
       c.messages <+: c'.messages ∨ c'.messages = []) :=
  ⟨fun _ _ => List.prefix_append _ _,
   fun s op i c c' h1 h2 => applyOp_messages_prefix_or_nil s op i c c' h1 h2⟩

/-- Witness for C2 at a concrete store and a concrete append operation. -/
theorem append_preserves_message_order_witness :
    (getConversation store1 0 = some conv0 ∧
      getConversation (applyOp store1 (Op.append 0 msg2)) 0
        = some (conv0.appendMsg msg2)) ∧
    (conv0.messages <+: (conv0.appendMsg msg2).messages ∨
      (conv0.appendMsg msg2).messages = []) :=
  ⟨⟨rfl, rfl⟩,
   append_preserves_message_order.2 store1 (Op.append 0 msg2) 0 conv0
     (conv0.appendMsg msg2) rfl rfl⟩

/-- C3: creating a conversation returns an id absent from the prior store,
and in every store state reachable by Conversation Store operations the ids
are pairwise distinct, so an id identifies at most one conversation. -/
theorem create_yields_fresh_unique_id :
    (∀ (s : Store) (title : String) (settings : ModelSettings) (now : Nat),
       Store.WF s → (createConversation s title settings now).2 ∉ s.ids) ∧
    (∀ ops : List Op, (runOps ops).ids.Nodup) :=
  ⟨fun s _ _ _ hwf => nextId_not_mem s hwf, fun ops => (wf_runOps ops).2⟩

/-- Witness for C3 at a concrete wellformed store and a concrete run. -/
theorem create_yields_fresh_unique_id_witness :
    Store.WF store1 ∧
    ((createConversation store1 "fresh" sampleSettings 3).2 ∉ store1.ids ∧
      (runOps [Op.create "a" sampleSettings 0,
               Op.create "b" sampleSettings 1]).ids.Nodup) :=
  ⟨⟨by decide, by decide⟩,
   ⟨create_yields_fresh_unique_id.1 store1 "fresh" sampleSettings 3
      ⟨by decide, by decide⟩,
    create_yields_fresh_unique_id.2
      [Op.create "a" sampleSettings 0, Op.create "b" sampleSettings 1]⟩⟩

/-- C4: after deleting conversation X, the listing contains no conversation
with id X. -/
theorem delete_removes_from_listing (s : Store) (x : Nat)
    (h : ∃ c ∈ listConversations s, c.id = x) :
    ∀ c' ∈ listConversations (deleteConversation s x), ¬ c'.id = x := by
  intro c' hc'
  simp only [listConversations, deleteConversation] at hc'
  have hmem := List.mem_filter.mp hc'
  simpa using hmem.2

/-- Witness for C4 at a concrete store containing conversation 0. -/
theorem delete_removes_from_listing_witness :
    (∃ c ∈ listConversations store1, c.id = 0) ∧
    (∀ c' ∈ listConversations (deleteConversation store1 0), ¬ c'.id = 0) :=
  ⟨by decide, delete_removes_from_listing store1 0 (by decide)⟩

/-- C5: for every input, the Provider Adapter either returns exactly one
assistant message or fails with one of the four provider-error kinds; it
consumes a single SDK outcome, so there is no retry and no third result. -/
theorem adapter_single_assistant_or_error (p : Provider) (modelId : String)
    (history : List Message) (settings : ModelSettings)
    (outcome : SdkOutcome) (now : Nat) :
    (∃ m, callProvider p modelId history settings outcome now = Except.ok m ∧
       m.role = Role.assistant) ∨
    (∃ e, callProvider p modelId history settings outcome now
        = Except.error e ∧
       (e = ProviderError.authentication ∨ e = ProviderError.rateLimit ∨
        e = ProviderError.invalidModel ∨ e = ProviderError.networkTimeout)) := by
  unfold callProvider
  by_cases h : modelId ∈ supportedModels p
  · rw [if_pos h]
    cases outcome with
    | success text => exact Or.inl ⟨⟨Role.assistant, text, now⟩, rfl, rfl⟩
    | authFailure => exact Or.inr ⟨_, rfl, Or.inl rfl⟩
    | rateLimited => exact Or.inr ⟨_, rfl, Or.inr (Or.inl rfl)⟩
    | modelNotFound => exact Or.inr ⟨_, rfl, Or.inr (Or.inr (Or.inl rfl))⟩
    | timedOut => exact Or.inr ⟨_, rfl, Or.inr (Or.inr (Or.inr rfl))⟩
  · rw [if_neg h]
    exact Or.inr ⟨_, rfl, Or.inr (Or.inr (Or.inl rfl))⟩

/-- The conversation of the rename witness below. -/
def conv0r : Conversation := { conv0 with title := "t2", updatedAt := 5 }

/-- C6: no store operation changes the role, content or timestamp of a
message already in a conversation (a message entry still present at its
position is unchanged), and a message appended to one conversation is owned
by it alone: appending to conversation i leaves every other conversation
untouched. -/
theorem message_immutable_and_owned :
    (∀ (s : Store) (op : Op) (i : Nat) (c c' : Conversation) (j : Nat),
       getConversation s i = some c →
       getConversation (applyOp s op) i = some c' →
       j < c'.messages.length → j < c.messages.length →
       c'.messages[j]? = c.messages[j]?) ∧
    (∀ (s : Store) (i k : Nat) (m : Message), ¬ k = i →
       getConversation (appendMessage s i m) k = getConversation s k) := by
  constructor
  · intro s op i c c' j h1 h2 hj' hj
    rcases applyOp_messages_prefix_or_nil s op i c c' h1 h2 with hpre | hnil
    · obtain ⟨t, ht⟩ := hpre
      rw [← ht, List.getElem?_append, if_pos hj]
    · rw [hnil] at hj'
      exact absurd hj' (by simp)
  · intro s i k m hk
    exact appendMessage_frame s i k m hk

/-- Witness for C6 at a concrete store, a rename operation and the
append frame at a different conversation id. -/
theorem message_immutable_and_owned_witness :
    ((getConversation store1 0 = some conv0 ∧
       getConversation (applyOp store1 (Op.rename 0 "t2" 5)) 0 = some conv0r ∧
       0 < conv0r.messages.length ∧ 0 < conv0.messages.length) ∧
      conv0r.messages[0]? = conv0.messages[0]?) ∧
    (¬ (1 : Nat) = 0 ∧
      getConversation (appendMessage store1 0 msg2) 1
        = getConversation store1 1) :=
  ⟨⟨⟨rfl, rfl, by decide, by decide⟩,
    message_immutable_and_owned.1 store1 (Op.rename 0 "t2" 5) 0 conv0 conv0r 0
      rfl rfl (by decide) (by decide)⟩,
   ⟨by decide, message_immutable_and_owned.2 store1 0 1 msg2 (by decide)⟩⟩

/-- C7: for every client store state, the App component's rendered tree
mounts the react-hot-toast container configured with the error icon style,
so the toast shown on a failed chat request has somewhere to appear. -/
theorem app_always_mounts_error_toaster (st : ChatStoreState) :
    mountsErrorToaster (App st) = true := by
  simp [App, mountsErrorToaster, mountsErrorToasterAny]

/-- Witness for C7 at a concrete client store state. -/
theorem app_always_mounts_error_toaster_witness :
    mountsErrorToaster (App ⟨true, none, [], false⟩) = true :=
  app_always_mounts_error_toaster ⟨true, none, [], false⟩

/-- C8: App reads sidebarOpen from the chat store but its rendered element
tree is the same for every value of the flag (two-run determinism over the
store state). -/
theorem app_independent_of_sidebarOpen (st : ChatStoreState) (b₁ b₂ : Bool) :
    App { st with sidebarOpen := b₁ } = App { st with sidebarOpen := b₂ } :=
  rfl

/-- C9: the setup script copies env_example.txt to backend/.env only when
no .env exists; an existing .env survives the run unchanged and no copy
step is performed. -/
theorem setup_never_overwrites_env :
    (∀ (env : SetupEnv) (content : String), env.envFile = some content →
       (runSetup env).2.2 = some content ∧
       SetupEffect.copyEnvTemplate ∉ (runSetup env).2.1) ∧
    (∀ env : SetupEnv,
       SetupEffect.copyEnvTemplate ∈ (runSetup env).2.1 →
       env.envFile = none) := by
  constructor
  · intro env content h
    unfold runSetup
    by_cases hp : env.hasPython3
    · by_cases hn : env.hasNode
      · rw [if_neg (by simp [hp]), if_neg (by simp [hn])]
        refine ⟨?_, ?_⟩
        · show envStep env = some content
          unfold envStep
          rw [h]
        · rw [show (match env.envFile with
              | none => [SetupEffect.copyEnvTemplate]
              | some _ => []) = ([] : List SetupEffect) from by rw [h]]
          simp
      · rw [if_neg (by simp [hp]), if_pos (by simp [hn])]
        exact ⟨h, by simp⟩
    · rw [if_pos (by simp [hp])]
      exact ⟨h, by simp⟩
  · intro env hmem
    cases henv : env.envFile with
    | none => rfl
    | some content =>
      unfold runSetup at hmem
      by_cases hp : env.hasPython3
      · by_cases hn : env.hasNode
        · rw [if_neg (by simp [hp]), if_neg (by simp [hn]),
            show (match env.envFile with
              | none => [SetupEffect.copyEnvTemplate]
              | some _ => []) = ([] : List SetupEffect) from by
                rw [henv]] at hmem
          simp at hmem
        · rw [if_neg (by simp [hp]), if_pos (by simp [hn])] at hmem
          simp at hmem
      · rw [if_pos (by simp [hp])] at hmem
        simp at hmem

/-- A concrete environment with an existing backend/.env file. -/
def envKeep : SetupEnv := ⟨true, true, false, false, some "KEEP", "TMPL"⟩

/-- A concrete environment with no backend/.env file. -/
def envAbsent : SetupEnv := ⟨true, true, false, false, none, "TMPL"⟩

/-- A concrete environment with python3 missing from the PATH. -/
def envNoPython : SetupEnv := ⟨false, true, false, false, none, "TMPL"⟩

/-- Witness for C9 at concrete environments with and without .env. -/
theorem setup_never_overwrites_env_witness :
    (envKeep.envFile = some "KEEP" ∧
      ((runSetup envKeep).2.2 = some "KEEP" ∧
        SetupEffect.copyEnvTemplate ∉ (runSetup envKeep).2.1)) ∧
    (SetupEffect.copyEnvTemplate ∈ (runSetup envAbsent).2.1 ∧
      envAbsent.envFile = none) :=
  ⟨⟨rfl, setup_never_overwrites_env.1 envKeep "KEEP" rfl⟩,
   ⟨by decide, setup_never_overwrites_env.2 envAbsent (by decide)⟩⟩

/-- C10: with python3 missing, or python3 present but node missing, the
setup script exits with status 1 having performed no installation or
file-creation step. -/
theorem setup_missing_interpreter_exits_early (env : SetupEnv)
    (h : env.hasPython3 = false ∨
      (env.hasPython3 = true ∧ env.hasNode = false)) :
    (runSetup env).1 = some 1 ∧ (runSetup env).2.1 = [] := by
  unfold runSetup
  rcases h with h | ⟨hp, hn⟩
  · rw [if_pos (by simp [h])]
    exact ⟨rfl, rfl⟩
  · rw [if_neg (by simp [hp]), if_pos (by simp [hn])]
    exact ⟨rfl, rfl⟩

/-- Witness for C10 at a concrete environment without python3. -/
theorem setup_missing_interpreter_exits_early_witness :
    (envNoPython.hasPython3 = false ∨
      (envNoPython.hasPython3 = true ∧ envNoPython.hasNode = false)) ∧
    ((runSetup envNoPython).1 = some 1 ∧ (runSetup envNoPython).2.1 = []) :=
  ⟨Or.inl rfl,
   setup_missing_interpreter_exits_early envNoPython (Or.inl rfl)⟩

end MemoryRag
